import Mathlib

/-
Verification development for the buildverse candidate-assessment flow
(TestCoordinator / AIInterview / TypingTest components).

The numeric computations of the source run on JavaScript numbers; all the
quantities the verified claims touch are small integers and exact decimal
fractions, so they are embedded as rationals, with `Math.round` embedded as
rounding half toward positive infinity.
-/

namespace Buildverse

/-- Embedding of JavaScript `Math.round`: round half toward positive infinity. -/
def jsRound (q : ℚ) : ℤ := ⌊q + 1/2⌋

/-- Embedding of `Math.round(x * 100) / 100`: rounding to two decimal places. -/
def jsRound2 (q : ℚ) : ℚ := (jsRound (q * 100) : ℚ) / 100

/-! ### Typing Metrics Engine (TypingTest component) -/

/-- A recorded keystroke event (the `KeystrokeData` interface). -/
structure KeystrokeData where
  key : String
  timestamp : ℚ
  timeBetweenKeystrokes : ℚ
  isCorrection : Bool

/-- The real-time statistics record returned by `calculateStats`. -/
structure RealTimeStats where
  wpm : ℤ
  accuracy : ℤ
  charactersTyped : ℕ
  errorsCount : ℕ
  correctionsCount : ℕ

/-- The character-match count of the `calculateStats` loop: the loop walks
positions `i < min(input.length, text.length)` and counts `input[i] === text[i]`. -/
def countCorrectChars : List Char → List Char → ℕ
  | a :: as, b :: bs => (if a = b then 1 else 0) + countCorrectChars as bs
  | _, _ => 0

/-- The mismatch count of the same loop (the `else` branch incrementing `errors`). -/
def countErrors : List Char → List Char → ℕ
  | a :: as, b :: bs => (if a = b then 0 else 1) + countErrors as bs
  | _, _ => 0

/-- Embedding of `calculateStats(input, text)`.  The source reads the elapsed
time (in minutes, `(Date.now() - startTime) / 1000 / 60`, zero before the test
starts) and the keystroke log from component state; both are passed here
explicitly. -/
def calculateStats (input text : List Char) (timeElapsed : ℚ)
    (keystrokeData : List KeystrokeData) : RealTimeStats :=
  let correctChars := countCorrectChars input text
  let errors := countErrors input text
  let wpm : ℤ :=
    if 0 < timeElapsed then jsRound ((correctChars : ℚ) / 5 / timeElapsed) else 0
  let accuracy : ℤ :=
    if 0 < input.length then jsRound ((correctChars : ℚ) / (input.length : ℚ) * 100) else 100
  { wpm := wpm
    accuracy := accuracy
    charactersTyped := input.length
    errorsCount := errors
    correctionsCount := (keystrokeData.filter (fun k => k.isCorrection)).length }

/-- The average inter-keystroke interval computed in `handleTestComplete`:
`keystrokeData.slice(1).reduce(...) / (keystrokeData.length - 1)` when the log
has more than one event, `0` otherwise. -/
def avgTimeBetweenKeystrokes (keystrokeData : List KeystrokeData) : ℚ :=
  if 1 < keystrokeData.length then
    ((keystrokeData.drop 1).map (fun k => k.timeBetweenKeystrokes)).sum
      / ((keystrokeData.length : ℚ) - 1)
  else 0

/-- The fraud-score accumulation of `handleTestComplete` (the three sequential
`if` blocks adding 0.3 / 0.2 / 0.2 and pushing indicator strings), returning the
unrounded score together with the indicator list. -/
def computeFraudScore (fraudDetectionEnabled : Bool) (keystrokeData : List KeystrokeData)
    (focusLostCount : ℕ) (fraudAlerts : List String) : ℚ × List String :=
  if fraudDetectionEnabled then
    ((if avgTimeBetweenKeystrokes keystrokeData < 50 then 3/10 else 0)
      + (if 2 < focusLostCount then 2/10 else 0)
      + (if 0 < fraudAlerts.length then 2/10 else 0),
     (if avgTimeBetweenKeystrokes keystrokeData < 50 then
        ["Unusually fast typing detected"] else [])
      ++ (if 2 < focusLostCount then ["Multiple focus losses during test"] else [])
      ++ (if 0 < fraudAlerts.length then fraudAlerts else []))
  else (0, [])

/-- The typing-test configuration slice used by the test component. -/
structure TypingConfig where
  duration : ℚ
  minimumWpm : ℚ
  minimumAccuracy : ℚ
  fraudDetectionEnabled : Bool
  fraudSensitivity : String

/-- The `TypingTestResult` record handed to the coordinator. -/
structure TypingTestResult where
  wpm : ℤ
  accuracy : ℤ
  charactersTyped : ℕ
  errorsMade : ℕ
  correctionsMade : ℕ
  timeSpent : ℚ
  passed : Bool
  fraudScore : ℚ
  fraudIndicators : List String

/-- Embedding of `handleTestComplete`: final statistics, fraud scoring, the
pass verdict (`wpm >= minimumWpm && accuracy >= minimumAccuracy && fraudScore < 0.7`,
checked against the unrounded score), and the result record whose stored
`fraudScore` is rounded to two decimals. -/
def handleTestComplete (config : TypingConfig) (userInput currentText : List Char)
    (timeElapsed timeRemaining : ℚ) (keystrokeData : List KeystrokeData)
    (focusLostCount : ℕ) (fraudAlerts : List String) : TypingTestResult :=
  let finalStats := calculateStats userInput currentText timeElapsed keystrokeData
  let timeSpent := config.duration - timeRemaining
  let fraud := computeFraudScore config.fraudDetectionEnabled keystrokeData
    focusLostCount fraudAlerts
  let passed := decide (config.minimumWpm ≤ (finalStats.wpm : ℚ)) &&
    decide (config.minimumAccuracy ≤ (finalStats.accuracy : ℚ)) &&
    decide (fraud.1 < 7/10)
  { wpm := finalStats.wpm
    accuracy := finalStats.accuracy
    charactersTyped := finalStats.charactersTyped
    errorsMade := finalStats.errorsCount
    correctionsMade := finalStats.correctionsCount
    timeSpent := timeSpent
    passed := passed
    fraudScore := jsRound2 fraud.1
    fraudIndicators := fraud.2 }

/-! ### Interview data model (AIInterview component) -/

/-- The five fixed question categories. -/
inductive Category
  | coding | dsa | education | achievements | problem_solving
deriving DecidableEq, Repr

/-- The string key of a category, as used in the question-id template literal. -/
def categoryName : Category → String
  | .coding => "coding"
  | .dsa => "dsa"
  | .education => "education"
  | .achievements => "achievements"
  | .problem_solving => "problem_solving"

/-- The `Question` interface.  `expectedAnswer` is optional and unused; omitted. -/
structure Question where
  id : String
  text : String
  category : Category
  difficulty : String
  timeLimit : ℚ
  maxScore : ℚ

/-- The `Answer` interface.  The `timestamp : Date` field (wall-clock time, set
to `new Date()` at submission and never read by any computation) is omitted. -/
structure Answer where
  questionId : String
  answer : String
  timeSpent : ℚ
  autoSubmitted : Bool

/-- The `QuestionEvaluation` interface.  `feedback`/`improvementSuggestions`
(template strings selected from fixed banks) are omitted; `creativity` is
`Math.random() * 40 + 60`, so the random draw is passed in explicitly. -/
structure QuestionEvaluation where
  questionId : String
  aiScore : ℚ
  technicalAccuracy : ℚ
  problemSolving : ℚ
  communication : ℚ
  timeManagement : ℚ
  creativity : ℚ

/-- The per-answer body of the `processAnswers` map: the stub evaluator.
`rand` is the `Math.random()` draw used for the creativity sub-score. -/
def evaluateAnswer (question : Question) (answer : Answer) (rand : ℚ) : QuestionEvaluation :=
  let baseScore := min 90 (max 30 ((answer.answer.length : ℚ) / 10))
  let timeBonus : ℚ := if answer.timeSpent < question.timeLimit * (1/2) then 10 else 0
  let aiScore := min 100 (baseScore + timeBonus)
  { questionId := answer.questionId
    aiScore := aiScore
    technicalAccuracy := aiScore * (9/10)
    problemSolving := aiScore * (8/10)
    communication := aiScore * (85/100)
    timeManagement := if answer.timeSpent < question.timeLimit then 90 else 60
    creativity := rand * 40 + 60 }

/-- Embedding of `processAnswers`: evaluate each answer against the question
found by `questions.find(q => q.id === answer.questionId)!`; the non-null
assertion is modelled by returning `none` when the lookup fails.  `rand i` is
the creativity draw for the answer at position `i` (starting at `i0`). -/
def processAnswers (questions : List Question) (rand : ℕ → ℚ) :
    List Answer → ℕ → Option (List QuestionEvaluation)
  | [], _ => some []
  | answer :: rest, i =>
    match questions.find? (fun q => q.id == answer.questionId) with
    | none => none
    | some question =>
      (processAnswers questions rand rest (i + 1)).map
        (fun es => evaluateAnswer question answer (rand i) :: es)

/-- The `InterviewResults` record.  `categoryBreakdown` is kept as a function
from the five categories; `evaluations` carries the full evaluation list. -/
structure InterviewResults where
  totalScore : ℤ
  percentageScore : ℤ
  questionsAttempted : ℕ
  questionsCompleted : ℕ
  categoryBreakdown : Category → ℤ
  totalTimeSpent : ℚ
  averageTimePerQuestion : ℤ
  questionsAutoSubmitted : ℕ
  passed : Bool
  recommendation : String
  nextSteps : String
  evaluations : List QuestionEvaluation

/-- Embedding of `calculateResults(answers, processedResults)`.  The local
`totalScore` is the plain sum of `aiScore`; the stored `totalScore` field is
its `Math.round`; `percentageScore` is the rounded mean over
`processedResults.length`; `passed` compares it with the minimum passing score. -/
def calculateResults (questions : List Question) (answers : List Answer)
    (processedResults : List QuestionEvaluation) (minimumPassingScore : ℚ) :
    InterviewResults :=
  let totalScore := (processedResults.map (fun r => r.aiScore)).sum
  let averageScore := totalScore / (processedResults.length : ℚ)
  let percentageScore := jsRound averageScore
  let categoryBreakdown : Category → ℤ := fun category =>
    let categoryResults := processedResults.filter (fun r =>
      match questions.find? (fun q => q.id == r.questionId) with
      | some q => q.category == category
      | none => false)
    if 0 < categoryResults.length then
      jsRound ((categoryResults.map (fun r => r.aiScore)).sum / (categoryResults.length : ℚ))
    else 0
  let totalTimeSpent := (answers.map (fun a => a.timeSpent)).sum
  let questionsAutoSubmitted := (answers.filter (fun a => a.autoSubmitted)).length
  let passed := decide (minimumPassingScore ≤ (percentageScore : ℚ))
  { totalScore := jsRound totalScore
    percentageScore := percentageScore
    questionsAttempted := answers.length
    questionsCompleted := (answers.filter (fun a => 0 < a.answer.trim.length)).length
    categoryBreakdown := categoryBreakdown
    totalTimeSpent := totalTimeSpent
    averageTimePerQuestion := jsRound (totalTimeSpent / (answers.length : ℚ))
    questionsAutoSubmitted := questionsAutoSubmitted
    passed := passed
    recommendation := if passed then
        "Candidate demonstrates strong technical capabilities and problem-solving skills. Recommended for next interview round."
      else
        "Candidate shows potential but may need additional preparation. Consider providing feedback and scheduling a follow-up assessment."
    nextSteps := if passed then
        "Schedule technical panel interview with senior team members."
      else
        "Provide detailed feedback and offer study resources for improvement areas."
    evaluations := processedResults }

/-! ### Interview Question Allocator (generateInterviewQuestions) -/

/-- The per-category percentage distribution of `config.questionDistribution`. -/
structure QuestionDistribution where
  coding : ℚ
  dsa : ℚ
  education : ℚ
  achievements : ℚ
  problem_solving : ℚ

/-- Field lookup on the distribution record. -/
def QuestionDistribution.get (d : QuestionDistribution) : Category → ℚ
  | .coding => d.coding
  | .dsa => d.dsa
  | .education => d.education
  | .achievements => d.achievements
  | .problem_solving => d.problem_solving

/-- The interview configuration slice consumed by the AIInterview component. -/
structure InterviewConfig where
  totalQuestions : ℕ
  questionDistribution : QuestionDistribution
  aiModel : String
  difficultyLevel : String
  minimumPassingScore : ℚ
  evaluationStrictness : String

/-- The iteration order of `Object.keys(config.questionDistribution)` for the
object literal of the source. -/
def categoriesOrder : List Category :=
  [.coding, .dsa, .education, .achievements, .problem_solving]

/-- The per-category allocation of `generateInterviewQuestions`:
`Math.round((percentage / 100) * config.totalQuestions)`; a negative rounded
value would run the generation loop zero times, hence `toNat`. -/
def questionCount (config : InterviewConfig) (category : Category) : ℕ :=
  (jsRound (config.questionDistribution.get category / 100 * (config.totalQuestions : ℚ))).toNat

/-- The per-category fixed time limits of `getTimeLimit`. -/
def getTimeLimit : Category → ℚ
  | .coding => 900
  | .dsa => 600
  | .education => 300
  | .achievements => 420
  | .problem_solving => 720

/-- The question record pushed by the inner allocation loop of
`generateInterviewQuestions` for slot `i` of a category. -/
def mkQuestion (config : InterviewConfig) (now : ℕ)
    (pickText : Category → ℕ → String) (category : Category) (i : ℕ) : Question :=
  { id := categoryName category ++ "_" ++ toString i ++ "_" ++ toString now
    text := pickText category i
    category := category
    difficulty := config.difficultyLevel
    timeLimit := getTimeLimit category
    maxScore := 100 }

/-- Embedding of `generateInterviewQuestions` before the presentation shuffle
(`sort(() => Math.random() - 0.5)` only permutes the list).  `now` stands for
the `Date.now()` id suffix and `pickText` for the random draw from the mock
question bank in `generateMockQuestion`. -/
def generateInterviewQuestions (config : InterviewConfig) (now : ℕ)
    (pickText : Category → ℕ → String) : List Question :=
  categoriesOrder.flatMap fun category =>
    (List.range (questionCount config category)).map
      (mkQuestion config now pickText category)

/-- Number of generated questions of a given category. -/
def countCat (category : Category) (questions : List Question) : ℕ :=
  (questions.filter (fun q => q.category == category)).length

/-! ### Interview navigation (answers list, submit, previous) -/

/-- The navigation-relevant slice of the AIInterview component state. -/
structure InterviewState where
  answers : List Answer
  currentQuestionIndex : ℕ
  currentAnswer : String

/-- The component state when the interview starts (`startInterview` /
`startQuestion(0)`). -/
def initialInterviewState : InterviewState :=
  { answers := [], currentQuestionIndex := 0, currentAnswer := "" }

/-- Embedding of `handleAnswerChange`: typing into the answer textarea. -/
def setCurrentAnswerText (text : String) (s : InterviewState) : InterviewState :=
  { s with currentAnswer := text }

/-- Embedding of `handleSubmitAnswer`: the answer record is appended
unconditionally (`setAnswers(prev => [...prev, answer])`); when a next question
exists, `startQuestion` advances the index and clears the answer text. -/
def handleSubmitAnswer (questions : List Question) (timeSpent : ℚ)
    (s : InterviewState) : InterviewState :=
  match questions.get? s.currentQuestionIndex with
  | none => s
  | some q =>
    let answer : Answer :=
      { questionId := q.id, answer := s.currentAnswer, timeSpent := timeSpent,
        autoSubmitted := false }
    let answers := s.answers ++ [answer]
    if s.currentQuestionIndex < questions.length - 1 then
      { answers := answers, currentQuestionIndex := s.currentQuestionIndex + 1,
        currentAnswer := "" }
    else
      { s with answers := answers }

/-- The `setAnswers` updater of `handlePreviousQuestion`: replace the answer
with the same `questionId` in place when one exists, append otherwise. -/
def updateOrAppendAnswer (answers : List Answer) (tempAnswer : Answer) : List Answer :=
  match answers.findIdx? (fun a => a.questionId == tempAnswer.questionId) with
  | some i => answers.set i tempAnswer
  | none => answers ++ [tempAnswer]

/-- Embedding of `handlePreviousQuestion`: when not on the first question, the
current text is saved with replace-or-append semantics, the index moves back,
and the previously saved answer text (looked up in the pre-update answers
list) is loaded into the textarea. -/
def handlePreviousQuestion (questions : List Question) (timeSpent : ℚ)
    (s : InterviewState) : InterviewState :=
  if 0 < s.currentQuestionIndex then
    match questions.get? s.currentQuestionIndex,
          questions.get? (s.currentQuestionIndex - 1) with
    | some q, some qprev =>
      let tempAnswer : Answer :=
        { questionId := q.id, answer := s.currentAnswer, timeSpent := timeSpent,
          autoSubmitted := false }
      let answers := updateOrAppendAnswer s.answers tempAnswer
      let loaded :=
        match s.answers.find? (fun a => a.questionId == qprev.id) with
        | some prevAnswer => prevAnswer.answer
        | none => ""
      { answers := answers, currentQuestionIndex := s.currentQuestionIndex - 1,
        currentAnswer := loaded }
    | _, _ => s
  else s

/-- Number of answer records held for a given question id. -/
def countAnswersFor (questionId : String) (answers : List Answer) : ℕ :=
  (answers.filter (fun a => a.questionId == questionId)).length

/-! ### Phase Coordinator (TestCoordinator component) -/

/-- Phase status values of the `TestPhase` interface. -/
inductive PhaseStatus
  | pending | active | completed | failed | skipped
deriving DecidableEq, BEq, Repr

/-- A test phase record (results payloads are tracked separately). -/
structure TestPhase where
  id : String
  status : PhaseStatus
  required : Bool
deriving DecidableEq

/-- The coordinator component state relevant to phase progression:
`loading`, `testPhases`, `currentPhase` and the `overallPassed` flag of
`overallResults` (`none` while `overallResults` is still `null`). -/
structure CoordState where
  loading : Bool
  testPhases : List TestPhase
  currentPhase : String
  overallResults : Option Bool

/-- The component state before `initializeTest` runs. -/
def initialCoordState : CoordState :=
  { loading := true, testPhases := [], currentPhase := "overview",
    overallResults := none }

/-- Embedding of `initializeTest` after a successful config fetch: when the
candidate ATS score is below the job minimum the function returns early (a
destructive toast is shown) leaving the initial state — `loading` stays true
and no phases are created; otherwise the phase list is built and loading ends. -/
def initializeTest (candidateAtsScore atsMinimumScore : ℤ)
    (typingTestEnabled : Bool) : CoordState :=
  if candidateAtsScore < atsMinimumScore then initialCoordState
  else
    { loading := false
      testPhases :=
        [{ id := "ats-check",
           status := if atsMinimumScore ≤ candidateAtsScore then .completed else .failed,
           required := true }]
        ++ (if typingTestEnabled then
              [{ id := "typing-test", status := .pending, required := true }]
            else [])
        ++ [{ id := "ai-interview", status := .pending, required := true }]
      currentPhase := "overview"
      overallResults := none }

/-- Embedding of `startNextPhase`: switch to the first pending phase, if any. -/
def startNextPhase (s : CoordState) : CoordState :=
  match s.testPhases.find? (fun phase => phase.status == .pending) with
  | some phase => { s with currentPhase := phase.id }
  | none => s

/-- The `setTestPhases` map updating one phase status by id. -/
def updatePhaseStatus (phases : List TestPhase) (phaseId : String)
    (status : PhaseStatus) : List TestPhase :=
  phases.map fun phase =>
    if phase.id == phaseId then { phase with status := status } else phase

/-- Embedding of `handleTypingTestComplete`: record the typing phase outcome;
on a pass, move to the interview (the source passes through `overview` for a
one-second UI delay, collapsed here); on a fail, return to the overview. -/
def handleTypingTestComplete (passed : Bool) (s : CoordState) : CoordState :=
  let phases := updatePhaseStatus s.testPhases "typing-test"
    (if passed then .completed else .failed)
  if passed then { s with testPhases := phases, currentPhase := "ai-interview" }
  else { s with testPhases := phases, currentPhase := "overview" }

/-- Embedding of `handleInterviewComplete`: record the interview outcome, set
the overall result, and return to the overview. -/
def handleInterviewComplete (passed : Bool) (s : CoordState) : CoordState :=
  { s with
    testPhases := updatePhaseStatus s.testPhases "ai-interview"
      (if passed then .completed else .failed)
    overallResults := some passed
    currentPhase := "overview" }

/-- The UI events that can change the coordinator state, with their rendering
guards: the Start-Next-Phase button exists only on the loaded overview with no
overall result; the typing test and interview components are mounted (and can
complete) only when the corresponding phase view is current and loading is
over. -/
inductive CoordStep (typingTestEnabled : Bool) : CoordState → CoordState → Prop
  | startNext (s : CoordState) (h : s.loading = false)
      (hres : s.overallResults = none) :
      CoordStep typingTestEnabled s (startNextPhase s)
  | typingDone (s : CoordState) (passed : Bool) (h : s.loading = false)
      (hphase : s.currentPhase = "typing-test") (henabled : typingTestEnabled = true) :
      CoordStep typingTestEnabled s (handleTypingTestComplete passed s)
  | interviewDone (s : CoordState) (passed : Bool) (h : s.loading = false)
      (hphase : s.currentPhase = "ai-interview") :
      CoordStep typingTestEnabled s (handleInterviewComplete passed s)

/-- Reachability under coordinator events. -/
inductive CoordReachable (typingTestEnabled : Bool) : CoordState → CoordState → Prop
  | refl (s : CoordState) : CoordReachable typingTestEnabled s s
  | step {s t u : CoordState} : CoordReachable typingTestEnabled s t →
      CoordStep typingTestEnabled t u → CoordReachable typingTestEnabled s u

/-- The overall outcome as the surrounding UI reads it:
`overallResults?.overallPassed` is falsy while `overallResults` is `null`. -/
def overallOutcome (s : CoordState) : Bool := s.overallResults.getD false

/-- The AIInterview component is mounted — and question generation invoked on
its mount — exactly when loading is over and the interview view is current. -/
def interviewMounted (s : CoordState) : Bool :=
  !s.loading && s.currentPhase == "ai-interview"

/-! ### Spec-side characterization and concrete instances used by the claims -/

/-- Spec-side characterization of the character comparison: the number of
positions `i < min(len(input), len(reference))` with `input[i] = reference[i]`,
stated independently of the loop recursion. -/
def specCorrectChars (input text : List Char) : ℕ :=
  ((List.range (min input.length text.length)).filter
    (fun i => input.getD i ' ' == text.getD i ' ')).length

/-- A typing configuration with fraud detection enabled. -/
def cfgFraudOn : TypingConfig :=
  { duration := 60, minimumWpm := 40, minimumAccuracy := 90,
    fraudDetectionEnabled := true, fraudSensitivity := "medium" }

/-- A keystroke log whose average inter-keystroke interval is 30 ms. -/
def ksAvg30 : List KeystrokeData :=
  [{ key := "a", timestamp := 1000, timeBetweenKeystrokes := 0, isCorrection := false },
   { key := "b", timestamp := 1030, timeBetweenKeystrokes := 30, isCorrection := false }]

/-- Two interview questions used by the navigation scenario. -/
def questionsTwo : List Question :=
  [{ id := "q0", text := "first question", category := .coding,
     difficulty := "medium", timeLimit := 900, maxScore := 100 },
   { id := "q1", text := "second question", category := .dsa,
     difficulty := "medium", timeLimit := 600, maxScore := 100 }]

/-- The navigation scenario of the backward-navigation claim: submit the first
question's answer with text `t1`, navigate back, retype `t2`, and re-submit the
same question. -/
def resubmitScenario (t1 t2 : String) (ts1 ts2 ts3 : ℚ) : InterviewState :=
  handleSubmitAnswer questionsTwo ts3
    (setCurrentAnswerText t2
      (handlePreviousQuestion questionsTwo ts2
        (handleSubmitAnswer questionsTwo ts1
          (setCurrentAnswerText t1 initialInterviewState))))

/-- Two evaluation records with aiScore 80 and 60 (aggregation example). -/
def twoEvals : List QuestionEvaluation :=
  [{ questionId := "q0", aiScore := 80, technicalAccuracy := 72, problemSolving := 64,
     communication := 68, timeManagement := 90, creativity := 80 },
   { questionId := "q1", aiScore := 60, technicalAccuracy := 54, problemSolving := 48,
     communication := 51, timeManagement := 60, creativity := 80 }]

/-- Two answered questions matching `twoEvals`. -/
def twoAnswers : List Answer :=
  [{ questionId := "q0", answer := "answer zero", timeSpent := 120, autoSubmitted := false },
   { questionId := "q1", answer := "answer one", timeSpent := 100, autoSubmitted := false }]

/-- An interview configuration over the default 30/25/15/15/15 distribution. -/
def mkConfig (n : ℕ) : InterviewConfig :=
  { totalQuestions := n
    questionDistribution :=
      { coding := 30, dsa := 25, education := 15, achievements := 15, problem_solving := 15 }
    aiModel := "default"
    difficultyLevel := "medium"
    minimumPassingScore := 70
    evaluationStrictness := "moderate" }

/-- A single question used by the aggregation witnesses. -/
def qOne : List Question :=
  [{ id := "q1", text := "describe a project", category := .achievements,
     difficulty := "medium", timeLimit := 420, maxScore := 100 }]

/-- A single blank, auto-submitted answer for `qOne`. -/
def ansBlank : List Answer :=
  [{ questionId := "q1", answer := "", timeSpent := 420, autoSubmitted := true }]

/-- The evaluation list the stub produces for `ansBlank` (creativity draw 0). -/
def evsBlank : List QuestionEvaluation :=
  [evaluateAnswer
    { id := "q1", text := "describe a project", category := .achievements,
      difficulty := "medium", timeLimit := 420, maxScore := 100 }
    { questionId := "q1", answer := "", timeSpent := 420, autoSubmitted := true } 0]

/-! ### Helper lemmas -/

lemma jsRound_intCast (n : ℤ) : jsRound (n : ℚ) = n := by
  unfold jsRound
  rw [Int.floor_eq_iff]
  constructor <;> norm_num

lemma jsRound_mono {a b : ℚ} (h : a ≤ b) : jsRound a ≤ jsRound b :=
  Int.floor_le_floor (by linarith)

lemma intCast_le_jsRound {n : ℤ} {q : ℚ} (h : (n : ℚ) ≤ q) : n ≤ jsRound q := by
  have := jsRound_mono h
  rwa [jsRound_intCast] at this

lemma jsRound_le_intCast {n : ℤ} {q : ℚ} (h : q ≤ (n : ℚ)) : jsRound q ≤ n := by
  have := jsRound_mono h
  rwa [jsRound_intCast] at this

lemma countCorrectChars_eq_spec (input : List Char) : ∀ text : List Char,
    countCorrectChars input text = specCorrectChars input text := by
  induction input with
  | nil => intro text; cases text <;> simp [countCorrectChars, specCorrectChars]
  | cons a as ih =>
    intro text
    cases text with
    | nil => simp [countCorrectChars, specCorrectChars]
    | cons b bs =>
      have hmin : min (a :: as).length (b :: bs).length
          = min as.length bs.length + 1 := by
        simp [Nat.succ_min_succ]
      rw [countCorrectChars, specCorrectChars, hmin, List.range_succ_eq_map]
      simp only [List.filter_cons, List.getD_cons_zero, List.filter_map,
        List.length_map]
      have hcomp : ((fun i => (a :: as).getD i ' ' == (b :: bs).getD i ' ') ∘
          (fun i => i + 1)) = (fun i => as.getD i ' ' == bs.getD i ' ') := by
        funext i
        simp
      rw [hcomp]
      by_cases h : a = b
      · simp [h, ih bs, specCorrectChars]
        omega
      · simp [h, ih bs, specCorrectChars]

lemma countCorrectChars_add_countErrors (input : List Char) : ∀ text : List Char,
    countCorrectChars input text + countErrors input text
      = min input.length text.length := by
  induction input with
  | nil => intro text; cases text <;> simp [countCorrectChars, countErrors]
  | cons a as ih =>
    intro text
    cases text with
    | nil => simp [countCorrectChars, countErrors]
    | cons b bs =>
      rw [countCorrectChars, countErrors]
      have := ih bs
      by_cases h : a = b <;> simp [h, Nat.succ_min_succ] <;> omega

lemma countCorrectChars_le_input (input : List Char) : ∀ text : List Char,
    countCorrectChars input text ≤ input.length := by
  induction input with
  | nil => intro text; cases text <;> simp [countCorrectChars]
  | cons a as ih =>
    intro text
    cases text with
    | nil => simp [countCorrectChars]
    | cons b bs =>
      rw [countCorrectChars]
      have := ih bs
      by_cases h : a = b <;> simp [h] <;> omega

lemma jsRound2_computeFraudScore (enabled : Bool) (ks : List KeystrokeData)
    (focusLostCount : ℕ) (fraudAlerts : List String) :
    jsRound2 (computeFraudScore enabled ks focusLostCount fraudAlerts).1
      = (computeFraudScore enabled ks focusLostCount fraudAlerts).1 := by
  unfold computeFraudScore
  cases enabled with
  | false => norm_num [jsRound2, jsRound]
  | true => split_ifs <;> norm_num [jsRound2, jsRound]

lemma evaluateAnswer_aiScore_bounds (question : Question) (answer : Answer) (rand : ℚ) :
    30 ≤ (evaluateAnswer question answer rand).aiScore ∧
      (evaluateAnswer question answer rand).aiScore ≤ 100 := by
  unfold evaluateAnswer
  simp only
  constructor
  · apply le_min (by norm_num)
    have hbase : (30 : ℚ) ≤ min 90 (max 30 ((answer.answer.length : ℚ) / 10)) :=
      le_min (by norm_num) (le_max_left _ _)
    have hbonus : (0 : ℚ) ≤
        (if answer.timeSpent < question.timeLimit * (1/2) then (10 : ℚ) else 0) := by
      split <;> norm_num
    linarith
  · exact min_le_left _ _

lemma processAnswers_eq_some (questions : List Question) (rand : ℕ → ℚ) :
    ∀ (answers : List Answer) (i : ℕ) (evals : List QuestionEvaluation),
      processAnswers questions rand answers i = some evals →
        evals.length = answers.length ∧
          ∀ e ∈ evals, ∃ q a r, e = evaluateAnswer q a r := by
  intro answers
  induction answers with
  | nil =>
    intro i evals h
    rw [processAnswers] at h
    simp only [Option.some.injEq] at h
    subst h
    simp
  | cons a rest ih =>
    intro i evals h
    rw [processAnswers] at h
    cases hf : questions.find? (fun q => q.id == a.questionId) with
    | none => rw [hf] at h; exact absurd h (by simp)
    | some q =>
      rw [hf] at h
      cases hr : processAnswers questions rand rest (i + 1) with
      | none => rw [hr] at h; exact absurd h (by simp)
      | some es =>
        rw [hr] at h
        simp only [Option.map_some', Option.some.injEq] at h
        obtain ⟨hlen, hmem⟩ := ih (i + 1) es hr
        subst h
        refine ⟨by simp [hlen], ?_⟩
        intro e he
        rcases List.mem_cons.mp he with he | he
        · exact ⟨q, a, rand i, he⟩
        · exact hmem e he

lemma mul_length_le_sum (l : List ℚ) (c : ℚ) (h : ∀ x ∈ l, c ≤ x) :
    c * (l.length : ℚ) ≤ l.sum := by
  induction l with
  | nil => simp
  | cons x xs ih =>
    simp only [List.length_cons, List.sum_cons]
    have hx := h x (by simp)
    have hxs := ih (fun y hy => h y (by simp [hy]))
    push_cast
    linarith

lemma countCat_mapRange (config : InterviewConfig) (now : ℕ)
    (pickText : Category → ℕ → String) (c category : Category) (n : ℕ) :
    countCat c ((List.range n).map (mkQuestion config now pickText category))
      = if category = c then n else 0 := by
  unfold countCat
  rw [List.filter_map, List.length_map]
  have hpred : ((fun q => q.category == c) ∘ mkQuestion config now pickText category)
      = fun _ => category == c := by
    funext i
    simp [mkQuestion]
  rw [hpred]
  by_cases h : category = c
  · simp [h]
  · simp [h]

lemma countCat_generate (config : InterviewConfig) (now : ℕ)
    (pickText : Category → ℕ → String) (c : Category) :
    countCat c (generateInterviewQuestions config now pickText)
      = questionCount config c := by
  have happ : ∀ l1 l2 : List Question,
      countCat c (l1 ++ l2) = countCat c l1 + countCat c l2 := by
    intro l1 l2
    simp [countCat, List.filter_append]
  rw [generateInterviewQuestions, categoriesOrder]
  simp only [List.flatMap_cons, List.flatMap_nil, List.append_nil]
  rw [happ, happ, happ, happ]
  rw [countCat_mapRange, countCat_mapRange, countCat_mapRange, countCat_mapRange,
    countCat_mapRange]
  cases c <;> simp

/-! ### Claim theorems -/

/-- C2: for every input string, reference text, and elapsed time, the real-time
typing statistics satisfy: correctChars is the number of positions
`i < min(len(input), len(reference))` where the characters agree, the
mismatches in that range are the error count, `wpm = round((correctChars/5)/elapsedMinutes)`
with `wpm = 0` when the elapsed time is zero, and
`accuracy = round(correctChars/len(input)*100)` with `accuracy = 100` when the
input is empty, regardless of elapsed time. -/
theorem typing_realtime_stats_C2 (input text : List Char) (timeElapsed : ℚ)
    (ks : List KeystrokeData) :
    (0 < timeElapsed → (calculateStats input text timeElapsed ks).wpm
        = jsRound ((specCorrectChars input text : ℚ) / 5 / timeElapsed)) ∧
    (timeElapsed = 0 → (calculateStats input text timeElapsed ks).wpm = 0) ∧
    (input ≠ [] → (calculateStats input text timeElapsed ks).accuracy
        = jsRound ((specCorrectChars input text : ℚ) / (input.length : ℚ) * 100)) ∧
    (input = [] → (calculateStats input text timeElapsed ks).accuracy = 100) ∧
    (calculateStats input text timeElapsed ks).errorsCount
        = min input.length text.length - specCorrectChars input text := by
  have hspec := countCorrectChars_eq_spec input text
  have herr := countCorrectChars_add_countErrors input text
  refine ⟨?_, ?_, ?_, ?_, ?_⟩
  · intro h
    simp only [calculateStats]
    rw [if_pos h, hspec]
  · intro h
    subst h
    simp [calculateStats]
  · intro h
    have hlen : 0 < input.length := List.length_pos.mpr h
    simp only [calculateStats]
    rw [if_pos hlen, hspec]
  · intro h
    subst h
    simp [calculateStats]
  · simp only [calculateStats]
    omega

/-- C2 witness: the statistics clauses evaluated at a concrete two-character
input against a reference differing at the second position, at elapsed times
one half minute and zero, and at the empty input. -/
theorem typing_realtime_stats_C2_witness :
    (calculateStats ['a', 'b'] ['a', 'x'] (1/2) []).wpm
        = jsRound ((specCorrectChars ['a', 'b'] ['a', 'x'] : ℚ) / 5 / (1/2)) ∧
    (calculateStats ['a', 'b'] ['a', 'x'] 0 []).wpm = 0 ∧
    (calculateStats ['a', 'b'] ['a', 'x'] (1/2) []).accuracy
        = jsRound ((specCorrectChars ['a', 'b'] ['a', 'x'] : ℚ)
            / ((['a', 'b'] : List Char).length : ℚ) * 100) ∧
    (calculateStats ([] : List Char) ['a', 'x'] (1/2) []).accuracy = 100 :=
  ⟨(typing_realtime_stats_C2 ['a', 'b'] ['a', 'x'] (1/2) []).1 (by norm_num),
   (typing_realtime_stats_C2 ['a', 'b'] ['a', 'x'] 0 []).2.1 rfl,
   (typing_realtime_stats_C2 ['a', 'b'] ['a', 'x'] (1/2) []).2.2.1 (by simp),
   (typing_realtime_stats_C2 [] ['a', 'x'] (1/2) []).2.2.2.1 rfl⟩

/-- C8: for every input, reference text, elapsed time and keystroke log, the
computed accuracy lies between 0 and 100 and the computed wpm is nonnegative. -/
theorem typing_stats_bounds_C8 (input text : List Char) (timeElapsed : ℚ)
    (ks : List KeystrokeData) :
    0 ≤ (calculateStats input text timeElapsed ks).accuracy ∧
      (calculateStats input text timeElapsed ks).accuracy ≤ 100 ∧
      0 ≤ (calculateStats input text timeElapsed ks).wpm := by
  have hle : countCorrectChars input text ≤ input.length :=
    countCorrectChars_le_input input text
  refine ⟨?_, ?_, ?_⟩
  · simp only [calculateStats]
    split
    · exact intCast_le_jsRound (by positivity)
    · norm_num
  · simp only [calculateStats]
    split
    · rename 0 < input.length => hpos
      apply jsRound_le_intCast
      have hlen : (0 : ℚ) < (input.length : ℚ) := by exact_mod_cast hpos
      have hc : ((countCorrectChars input text : ℚ)) ≤ (input.length : ℚ) := by
        exact_mod_cast hle
      have hdiv : (countCorrectChars input text : ℚ) / (input.length : ℚ) ≤ 1 :=
        (div_le_one hlen).mpr hc
      calc (countCorrectChars input text : ℚ) / (input.length : ℚ) * 100
          ≤ 1 * 100 := by
            apply mul_le_mul_of_nonneg_right hdiv
            norm_num
        _ = ((100 : ℤ) : ℚ) := by norm_num
    · norm_num
  · simp only [calculateStats]
    split
    · rename 0 < timeElapsed => hpos
      exact intCast_le_jsRound (by positivity)
    · norm_num

/-- C3: with fraud detection enabled, an average inter-keystroke interval of
30 ms, a focus-loss count of 3 and no accumulated input-time alerts, the final
result carries fraudScore exactly 0.50 and exactly the two corresponding rule
indicators, in rule order. -/
theorem fraud_two_rules_C3 (config : TypingConfig) (input text : List Char)
    (timeElapsed timeRemaining : ℚ) (ks : List KeystrokeData)
    (henabled : config.fraudDetectionEnabled = true)
    (havg : avgTimeBetweenKeystrokes ks = 30) :
    (handleTestComplete config input text timeElapsed timeRemaining ks 3 []).fraudScore
        = 1/2 ∧
    (handleTestComplete config input text timeElapsed timeRemaining ks 3 []).fraudIndicators
        = ["Unusually fast typing detected", "Multiple focus losses during test"] := by
  have hpair : computeFraudScore config.fraudDetectionEnabled ks 3 []
      = (1/2, ["Unusually fast typing detected", "Multiple focus losses during test"]) := by
    rw [henabled, computeFraudScore, if_pos rfl, havg]
    norm_num
  constructor
  · show jsRound2 (computeFraudScore config.fraudDetectionEnabled ks 3 []).1 = 1/2
    rw [hpair]
    norm_num [jsRound2, jsRound]
  · show (computeFraudScore config.fraudDetectionEnabled ks 3 []).2 = _
    rw [hpair]

/-- C3 witness: the rule evaluated on a two-event keystroke log whose single
recorded interval is 30 ms, with fraud detection enabled. -/
theorem fraud_two_rules_C3_witness :
    (handleTestComplete cfgFraudOn [] [] 0 0 ksAvg30 3 []).fraudScore = 1/2 ∧
    (handleTestComplete cfgFraudOn [] [] 0 0 ksAvg30 3 []).fraudIndicators
        = ["Unusually fast typing detected", "Multiple focus losses during test"] :=
  fraud_two_rules_C3 cfgFraudOn [] [] 0 0 ksAvg30 rfl
    (by norm_num [avgTimeBetweenKeystrokes, ksAvg30])

/-- C7: the typing-test result passes exactly when the computed wpm and
accuracy meet the configured minimums and the fraud score is strictly below
0.7 (the boundary 0.7 itself fails), and the fraud score is 0 whenever fraud
detection is disabled. -/
theorem typing_pass_rule_C7 (config : TypingConfig) (input text : List Char)
    (timeElapsed timeRemaining : ℚ) (ks : List KeystrokeData)
    (focusLostCount : ℕ) (fraudAlerts : List String) :
    ((handleTestComplete config input text timeElapsed timeRemaining ks
        focusLostCount fraudAlerts).passed = true ↔
      (config.minimumWpm ≤ ((handleTestComplete config input text timeElapsed timeRemaining ks
          focusLostCount fraudAlerts).wpm : ℚ) ∧
       config.minimumAccuracy ≤ ((handleTestComplete config input text timeElapsed timeRemaining ks
          focusLostCount fraudAlerts).accuracy : ℚ) ∧
       (handleTestComplete config input text timeElapsed timeRemaining ks
          focusLostCount fraudAlerts).fraudScore < 7/10)) ∧
    (config.fraudDetectionEnabled = false →
      (handleTestComplete config input text timeElapsed timeRemaining ks
        focusLostCount fraudAlerts).fraudScore = 0) := by
  have hround := jsRound2_computeFraudScore config.fraudDetectionEnabled ks
    focusLostCount fraudAlerts
  constructor
  · show (_ && _ && _) = true ↔ _
    simp only [handleTestComplete, hround, Bool.and_eq_true, decide_eq_true_eq]
    tauto
  · intro h
    show jsRound2 (computeFraudScore config.fraudDetectionEnabled ks
        focusLostCount fraudAlerts).1 = 0
    rw [h, computeFraudScore]
    norm_num [jsRound2, jsRound]

/-- C7 witness: the pass rule evaluated at a concrete run with fraud detection
disabled: empty input, empty log, both minimums zero. -/
theorem typing_pass_rule_C7_witness :
    ((handleTestComplete
        { duration := 60, minimumWpm := 0, minimumAccuracy := 0,
          fraudDetectionEnabled := false, fraudSensitivity := "low" }
        [] [] 0 0 [] 0 []).passed = true ↔
      ((0 : ℚ) ≤ ((handleTestComplete
          { duration := 60, minimumWpm := 0, minimumAccuracy := 0,
            fraudDetectionEnabled := false, fraudSensitivity := "low" }
          [] [] 0 0 [] 0 []).wpm : ℚ) ∧
       (0 : ℚ) ≤ ((handleTestComplete
          { duration := 60, minimumWpm := 0, minimumAccuracy := 0,
            fraudDetectionEnabled := false, fraudSensitivity := "low" }
          [] [] 0 0 [] 0 []).accuracy : ℚ) ∧
       (handleTestComplete
          { duration := 60, minimumWpm := 0, minimumAccuracy := 0,
            fraudDetectionEnabled := false, fraudSensitivity := "low" }
          [] [] 0 0 [] 0 []).fraudScore < 7/10)) ∧
    (handleTestComplete
        { duration := 60, minimumWpm := 0, minimumAccuracy := 0,
          fraudDetectionEnabled := false, fraudSensitivity := "low" }
        [] [] 0 0 [] 0 []).fraudScore = 0 :=
  ⟨(typing_pass_rule_C7 _ [] [] 0 0 [] 0 []).1,
   (typing_pass_rule_C7 _ [] [] 0 0 [] 0 []).2 rfl⟩

/-- C9: with fraud detection enabled and fewer than two logged keystroke
events, the average inter-keystroke interval evaluates to 0 ms, which passes
the under-50ms test, so the result always gains 0.3 fraud score and the fast
typing indicator heads the indicator list. -/
theorem fraud_short_log_C9 (config : TypingConfig) (input text : List Char)
    (timeElapsed timeRemaining : ℚ) (ks : List KeystrokeData)
    (focusLostCount : ℕ) (fraudAlerts : List String)
    (henabled : config.fraudDetectionEnabled = true)
    (hshort : ks.length ≤ 1) :
    avgTimeBetweenKeystrokes ks = 0 ∧
    "Unusually fast typing detected" ∈
      (handleTestComplete config input text timeElapsed timeRemaining ks
        focusLostCount fraudAlerts).fraudIndicators ∧
    (handleTestComplete config input text timeElapsed timeRemaining ks
        focusLostCount fraudAlerts).fraudIndicators.head?
      = some "Unusually fast typing detected" ∧
    (3/10 : ℚ) ≤ (handleTestComplete config input text timeElapsed timeRemaining ks
        focusLostCount fraudAlerts).fraudScore := by
  have havg : avgTimeBetweenKeystrokes ks = 0 := by
    rw [avgTimeBetweenKeystrokes, if_neg]
    omega
  have hpair : computeFraudScore config.fraudDetectionEnabled ks focusLostCount fraudAlerts
      = ((3/10 : ℚ) + (if 2 < focusLostCount then 2/10 else 0)
            + (if 0 < fraudAlerts.length then 2/10 else 0),
         "Unusually fast typing detected" ::
           ((if 2 < focusLostCount then ["Multiple focus losses during test"] else [])
             ++ (if 0 < fraudAlerts.length then fraudAlerts else []))) := by
    rw [henabled, computeFraudScore, if_pos rfl, havg]
    norm_num
  refine ⟨havg, ?_, ?_, ?_⟩
  · show "Unusually fast typing detected" ∈
      (computeFraudScore config.fraudDetectionEnabled ks focusLostCount fraudAlerts).2
    rw [hpair]
    simp
  · show (computeFraudScore config.fraudDetectionEnabled ks focusLostCount fraudAlerts).2.head?
      = _
    rw [hpair]
    rfl
  · show (3/10 : ℚ) ≤ jsRound2 (computeFraudScore config.fraudDetectionEnabled ks
      focusLostCount fraudAlerts).1
    rw [hpair]
    split_ifs <;> norm_num [jsRound2, jsRound]

/-- C9 witness: an early submit with an empty keystroke log, fraud detection
enabled, no focus losses and no alerts. -/
theorem fraud_short_log_C9_witness :
    avgTimeBetweenKeystrokes [] = 0 ∧
    "Unusually fast typing detected" ∈
      (handleTestComplete cfgFraudOn [] [] 0 0 [] 0 []).fraudIndicators ∧
    (handleTestComplete cfgFraudOn [] [] 0 0 [] 0 []).fraudIndicators.head?
      = some "Unusually fast typing detected" ∧
    (3/10 : ℚ) ≤ (handleTestComplete cfgFraudOn [] [] 0 0 [] 0 []).fraudScore :=
  fraud_short_log_C9 cfgFraudOn [] [] 0 0 [] 0 [] rfl (by simp)

/-- C1: interview aggregation computes percentageScore as the rounded mean of
the per-question aiScores — the rounded sum over questionsAttempted — with the
boundary-inclusive verdict `passed = percentageScore >= minimumPassingScore`;
in particular two answered questions with aiScores 80 and 60 give
percentageScore 70, which passes against minimumPassingScore 70. -/
theorem interview_aggregation_C1 :
    (∀ (questions : List Question) (rand : ℕ → ℚ) (answers : List Answer)
        (evals : List QuestionEvaluation) (minimumPassingScore : ℚ),
      processAnswers questions rand answers 0 = some evals →
        ((calculateResults questions answers evals minimumPassingScore).questionsAttempted
            = answers.length
          ∧ (calculateResults questions answers evals minimumPassingScore).totalScore
            = jsRound ((evals.map (fun r => r.aiScore)).sum)
          ∧ (calculateResults questions answers evals minimumPassingScore).percentageScore
            = jsRound ((evals.map (fun r => r.aiScore)).sum / (answers.length : ℚ))
          ∧ ((calculateResults questions answers evals minimumPassingScore).passed = true
              ↔ minimumPassingScore ≤
                  ((calculateResults questions answers evals minimumPassingScore).percentageScore : ℚ))))
    ∧ (calculateResults questionsTwo twoAnswers twoEvals 70).percentageScore = 70
    ∧ (calculateResults questionsTwo twoAnswers twoEvals 70).passed = true := by
  refine ⟨?_, ?_, ?_⟩
  · intro questions rand answers evals minimumPassingScore h
    have hlen := (processAnswers_eq_some questions rand answers 0 evals h).1
    refine ⟨rfl, rfl, ?_, ?_⟩
    · simp only [calculateResults, hlen]
    · simp only [calculateResults, decide_eq_true_eq]
  · show jsRound ((twoEvals.map (fun r => r.aiScore)).sum / ((twoEvals.length : ℕ) : ℚ)) = 70
    norm_num [twoEvals, jsRound]
  · show decide ((70 : ℚ) ≤ (jsRound ((twoEvals.map (fun r => r.aiScore)).sum
      / ((twoEvals.length : ℕ) : ℚ)) : ℚ)) = true
    norm_num [twoEvals, jsRound]

/-- C1 witness: the aggregation formula and verdict rule instantiated at a
one-question interview whose evaluation list is produced by the stub. -/
theorem interview_aggregation_C1_witness :
    (calculateResults qOne ansBlank evsBlank 70).questionsAttempted = ansBlank.length
      ∧ (calculateResults qOne ansBlank evsBlank 70).totalScore
        = jsRound ((evsBlank.map (fun r => r.aiScore)).sum)
      ∧ (calculateResults qOne ansBlank evsBlank 70).percentageScore
        = jsRound ((evsBlank.map (fun r => r.aiScore)).sum / (ansBlank.length : ℚ))
      ∧ ((calculateResults qOne ansBlank evsBlank 70).passed = true
          ↔ (70 : ℚ) ≤ ((calculateResults qOne ansBlank evsBlank 70).percentageScore : ℚ)) :=
  interview_aggregation_C1.1 qOne (fun _ => 0) ansBlank evsBlank 70 rfl

/-- C10: the stub evaluator bounds every aiScore between 30 and 100 — base
score `min(90, max(30, length/10))` plus an optional +10 time bonus, capped at
100 — so an interview of blank answers still yields percentageScore at least
30. -/
theorem stub_evaluator_floor_C10 :
    (∀ (question : Question) (answer : Answer) (rand : ℚ),
        30 ≤ (evaluateAnswer question answer rand).aiScore ∧
          (evaluateAnswer question answer rand).aiScore ≤ 100)
    ∧ (∀ (questions : List Question) (rand : ℕ → ℚ) (answers : List Answer)
          (evals : List QuestionEvaluation) (minimumPassingScore : ℚ),
        processAnswers questions rand answers 0 = some evals →
        answers ≠ [] →
        (∀ a ∈ answers, a.answer = "") →
        30 ≤ (calculateResults questions answers evals minimumPassingScore).percentageScore) := by
  refine ⟨evaluateAnswer_aiScore_bounds, ?_⟩
  intro questions rand answers evals minimumPassingScore h hne _hblank
  obtain ⟨hlen, hmem⟩ := processAnswers_eq_some questions rand answers 0 evals h
  have hlenpos : 0 < evals.length := by
    rw [hlen]
    exact List.length_pos.mpr hne
  have hbound : ∀ x ∈ evals.map (fun r => r.aiScore), (30 : ℚ) ≤ x := by
    intro x hx
    obtain ⟨e, he, hex⟩ := List.mem_map.mp hx
    obtain ⟨q, a, r, hE⟩ := hmem e he
    rw [← hex, hE]
    exact (evaluateAnswer_aiScore_bounds q a r).1
  have hsum : (30 : ℚ) * (evals.length : ℚ) ≤ (evals.map (fun r => r.aiScore)).sum := by
    have := mul_length_le_sum (evals.map (fun r => r.aiScore)) 30 hbound
    simpa using this
  have hlenQ : (0 : ℚ) < (evals.length : ℚ) := by exact_mod_cast hlenpos
  have havg : ((30 : ℤ) : ℚ) ≤ (evals.map (fun r => r.aiScore)).sum / (evals.length : ℚ) := by
    rw [le_div_iff₀ hlenQ]
    push_cast
    linarith
  have := intCast_le_jsRound havg
  simpa only [calculateResults] using this

/-- C10 witness: the percentage floor instantiated at a one-question interview
whose single answer is blank and auto-submitted. -/
theorem stub_evaluator_floor_C10_witness :
    30 ≤ (calculateResults qOne ansBlank evsBlank 0).percentageScore :=
  stub_evaluator_floor_C10.2 qOne (fun _ => 0) ansBlank evsBlank 0 rfl
    (by simp [ansBlank]) (by simp [ansBlank])

/-- C6: the allocator gives every category exactly
`round(percentage/100 * N)` questions, with no normalization pass; for N=20
over the default 30/25/15/15/15 distribution the counts are 6,5,3,3,3 summing
to 20; for N=6 the independently rounded counts sum to 7 ≠ 6 and are accepted;
for N=2 the education category rounds to zero and is excluded. -/
theorem question_allocator_C6 :
    (∀ (config : InterviewConfig) (now : ℕ) (pickText : Category → ℕ → String)
        (c : Category),
      countCat c (generateInterviewQuestions config now pickText)
        = questionCount config c)
    ∧ questionCount (mkConfig 20) .coding = 6
    ∧ questionCount (mkConfig 20) .dsa = 5
    ∧ questionCount (mkConfig 20) .education = 3
    ∧ questionCount (mkConfig 20) .achievements = 3
    ∧ questionCount (mkConfig 20) .problem_solving = 3
    ∧ (generateInterviewQuestions (mkConfig 20) 0 (fun _ _ => "")).length = 20
    ∧ questionCount (mkConfig 6) .coding + questionCount (mkConfig 6) .dsa
        + questionCount (mkConfig 6) .education + questionCount (mkConfig 6) .achievements
        + questionCount (mkConfig 6) .problem_solving = 7
    ∧ countCat .education (generateInterviewQuestions (mkConfig 2) 0 (fun _ _ => "")) = 0 := by
  have hqc20c : questionCount (mkConfig 20) .coding = 6 := by
    have : jsRound ((30 : ℚ) / 100 * 20) = 6 := by norm_num [jsRound]
    simp [questionCount, mkConfig, QuestionDistribution.get, this]
  have hqc20d : questionCount (mkConfig 20) .dsa = 5 := by
    have : jsRound ((25 : ℚ) / 100 * 20) = 5 := by norm_num [jsRound]
    simp [questionCount, mkConfig, QuestionDistribution.get, this]
  have hqc20e : questionCount (mkConfig 20) .education = 3 := by
    have : jsRound ((15 : ℚ) / 100 * 20) = 3 := by norm_num [jsRound]
    simp [questionCount, mkConfig, QuestionDistribution.get, this]
  have hqc20a : questionCount (mkConfig 20) .achievements = 3 := by
    have : jsRound ((15 : ℚ) / 100 * 20) = 3 := by norm_num [jsRound]
    simp [questionCount, mkConfig, QuestionDistribution.get, this]
  have hqc20p : questionCount (mkConfig 20) .problem_solving = 3 := by
    have : jsRound ((15 : ℚ) / 100 * 20) = 3 := by norm_num [jsRound]
    simp [questionCount, mkConfig, QuestionDistribution.get, this]
  refine ⟨countCat_generate, hqc20c, hqc20d, hqc20e, hqc20a, hqc20p, ?_, ?_, ?_⟩
  · rw [generateInterviewQuestions, categoriesOrder]
    simp only [List.flatMap_cons, List.flatMap_nil, List.append_nil,
      List.length_append, List.length_map, List.length_range]
    rw [hqc20c, hqc20d, hqc20e, hqc20a, hqc20p]
  · have h1 : questionCount (mkConfig 6) .coding = 2 := by
      have : jsRound ((30 : ℚ) / 100 * 6) = 2 := by norm_num [jsRound]
      simp [questionCount, mkConfig, QuestionDistribution.get, this]
    have h2 : questionCount (mkConfig 6) .dsa = 2 := by
      have : jsRound ((25 : ℚ) / 100 * 6) = 2 := by norm_num [jsRound]
      simp [questionCount, mkConfig, QuestionDistribution.get, this]
    have h3 : ∀ c, QuestionDistribution.get (mkConfig 6).questionDistribution c = 15 →
        questionCount (mkConfig 6) c = 1 := by
      intro c hc
      rw [questionCount, hc]
      norm_num [mkConfig, jsRound]
    rw [h1, h2, h3 .education rfl, h3 .achievements rfl, h3 .problem_solving rfl]
  · rw [countCat_generate]
    have : jsRound ((15 : ℚ) / 100 * 2) = 0 := by norm_num [jsRound]
    simp [questionCount, mkConfig, QuestionDistribution.get, this]

/-- C4 counterexample: submitting an answer for question q0, navigating back,
and re-submitting q0 with new text leaves TWO answer records for q0, not
exactly one — `handleSubmitAnswer` appends unconditionally. -/
theorem resubmit_duplicate_counterexample_C4 :
    countAnswersFor "q0" (resubmitScenario "first answer" "second answer" 5 3 4).answers = 2
      ∧ countAnswersFor "q0"
          (resubmitScenario "first answer" "second answer" 5 3 4).answers ≠ 1 := by
  constructor
  · rfl
  · intro h
    rw [show countAnswersFor "q0"
        (resubmitScenario "first answer" "second answer" 5 3 4).answers = 2 from rfl] at h
    exact absurd h (by norm_num)

/-- C4 amended: in the submit–back–resubmit scenario the answers list holds
exactly two records for the revisited questionId — the save performed during
backward navigation replaces in place keyed by questionId, but
`handleSubmitAnswer` appends a fresh record — and the latest record holds the
latest text. -/
theorem resubmit_append_semantics_C4 (t1 t2 : String) (ts1 ts2 ts3 : ℚ) :
    (resubmitScenario t1 t2 ts1 ts2 ts3).answers
      = [{ questionId := "q0", answer := t1, timeSpent := ts1, autoSubmitted := false },
         { questionId := "q1", answer := "", timeSpent := ts2, autoSubmitted := false },
         { questionId := "q0", answer := t2, timeSpent := ts3, autoSubmitted := false }]
    ∧ countAnswersFor "q0" (resubmitScenario t1 t2 ts1 ts2 ts3).answers = 2 :=
  ⟨rfl, rfl⟩

/-- C5: when the candidate ATS score is below the job minimum, every state the
coordinator can reach has no initialized phases (so the typing-test and
ai-interview phases never reach active status), a null overall result (the
overall outcome reads false), and the interview component — whose mount is
what invokes question generation — is never mounted. -/
theorem ats_gate_C5 (candidateAtsScore atsMinimumScore : ℤ) (typingTestEnabled : Bool)
    (s : CoordState)
    (hgate : candidateAtsScore < atsMinimumScore)
    (hreach : CoordReachable typingTestEnabled
      (initializeTest candidateAtsScore atsMinimumScore typingTestEnabled) s) :
    s.testPhases = [] ∧
    (∀ phase ∈ s.testPhases, phase.status ≠ PhaseStatus.active) ∧
    s.overallResults = none ∧
    overallOutcome s = false ∧
    interviewMounted s = false := by
  have hinv : s = initialCoordState := by
    induction hreach with
    | refl => rw [initializeTest, if_pos hgate]
    | step hr hstep ih =>
      cases hstep with
      | startNext h hres => rw [ih] at h; exact absurd h (by simp [initialCoordState])
      | typingDone passed h hphase henabled =>
        rw [ih] at h; exact absurd h (by simp [initialCoordState])
      | interviewDone passed h hphase =>
        rw [ih] at h; exact absurd h (by simp [initialCoordState])
  subst hinv
  refine ⟨rfl, by simp [initialCoordState], rfl, rfl, rfl⟩

/-- C5 witness: the gate instantiated at ATS score 10 against minimum 50, at
the initialization state itself. -/
theorem ats_gate_C5_witness :
    (initializeTest 10 50 true).testPhases = [] ∧
    (∀ phase ∈ (initializeTest 10 50 true).testPhases,
      phase.status ≠ PhaseStatus.active) ∧
    (initializeTest 10 50 true).overallResults = none ∧
    overallOutcome (initializeTest 10 50 true) = false ∧
    interviewMounted (initializeTest 10 50 true) = false :=
  ats_gate_C5 10 50 true (initializeTest 10 50 true) (by norm_num)
    (CoordReachable.refl _)

end Buildverse
